import Mathlib

/-!
Verification of the engineering-graphics visualization tool's
lifecycle/state-management core and its per-topic projection math.

The definitions below are a shallow embedding of the repository's
JavaScript source:

* `SceneState` / `clearSimulation` / `addToSimulation` embed
  `SceneManager` (its simulation-object group, resource disposal, and the
  fixed base scenery created by `createBasePlanes` / `setupLighting`);
* `AppState` / `loadTopic` embed `TopicManager.loadTopic` together with
  an event trace recording the observable operations in order;
* `pointsObjects`, `linesObjects`, `planesObjects` embed each topic
  module's `updateVisualization` (the exact sequence of scene objects it
  adds, with their geometries, materials, positions, and rotations);
* `getQuadrant`, `lineEnd`, `distanceTo`, `applyEulerXYZ` embed the
  coordinate-geometry formulas of the topic modules, over exact real
  arithmetic (the JavaScript uses IEEE doubles; angles are converted
  from degrees to radians exactly as the source does).
-/

noncomputable section

/-- A 3D vector, as used by the rendering library for positions,
rotations (Euler angle triples) and geometry points. -/
structure Vec3 where
  x : ℝ
  y : ℝ
  z : ℝ

/-- The zero vector: default position / rotation of a scene object. -/
def v0 : Vec3 := ⟨0, 0, 0⟩

/-- Geometry resources created by the topic modules and the scene setup. -/
inductive Geometry
  | sphere (radius : ℝ) (widthSegments heightSegments : ℕ)
  | bufferFromPoints (pts : List Vec3)
  | plane (width height : ℝ)
  | edges (base : Geometry)

/-- Material resources created by the topic modules and the scene setup. -/
inductive Material
  | meshStandard (color : ℕ)
  | meshStandardT (color : ℕ) (opacity roughness metalness : ℝ)
  | lineBasic (color : ℕ) (linewidth : ℝ)
  | lineDashed (color : ℕ) (dashSize gapSize : ℝ)

/-- A scene object's material slot: the renderer allows either a single
material or an array of materials, and `clearSimulation` checks which
case it is before disposing. -/
inductive MatSlot
  | one (m : Material)
  | many (ms : List Material)

/-- The materials disposed for a slot: a single material, or each element
of a material array. -/
def matList : MatSlot → List Material
  | .one m => [m]
  | .many ms => ms

/-- The renderer object classes used by this program. -/
inductive ObjClass
  | mesh
  | line
  | lineSegments

/-- A graphics primitive held in the scene: class, geometry, material(s),
position and Euler rotation. -/
structure SimObject where
  cls : ObjClass
  geom : Geometry
  mat : MatSlot
  pos : Vec3
  rot : Vec3

/-- A graphics resource release, as performed by `clearSimulation`. -/
inductive Resource
  | geomRes (g : Geometry)
  | matRes (m : Material)

/-- The resources released for one object leaving the simulation group:
its geometry first, then its material(s) — the order of the dispose
calls in `clearSimulation`. -/
def objResources (o : SimObject) : List Resource :=
  Resource.geomRes o.geom :: (matList o.mat).map Resource.matRes

/-- Lights installed by `setupLighting`. -/
inductive Light
  | ambient (color : ℕ) (intensity : ℝ)
  | directional (color : ℕ) (intensity : ℝ) (pos : Vec3)

/-- The ground grid installed by `createBasePlanes` (`GridHelper`). -/
structure GridHelper where
  size : ℕ
  divisions : ℕ
  colorCenterLine : ℕ
  colorGrid : ℕ
  posY : ℝ

/-- The scene owned by `SceneManager`: the fixed base content (reference
planes HP and VP, grid, axis lines, lights) and the mutable simulation
group `simulationObjects`, plus the log of resources released so far. -/
structure SceneState where
  hp : Option SimObject
  vp : Option SimObject
  gridHelper : Option GridHelper
  axisLines : List SimObject
  lights : List Light
  simulationObjects : List SimObject
  disposed : List Resource

/-- The `while` loop of `clearSimulation`: repeatedly dispose the head
object's geometry and material(s) (appending them to the release log)
and remove it, until the group is empty; returns the final log. -/
def clearSimAux (log : List Resource) : List SimObject → List Resource
  | [] => log
  | o :: rest => clearSimAux (log ++ objResources o) rest

/-- `SceneManager.clearSimulation`: empties the simulation group,
releasing every removed object's resources. Only `simulationObjects`
and the release log change. -/
def clearSimulation (s : SceneState) : SceneState :=
  { s with
      simulationObjects := []
      disposed := clearSimAux s.disposed s.simulationObjects }

/-- `SceneManager.addToSimulation`: appends an object to the group. -/
def addToSimulation (s : SceneState) (o : SimObject) : SceneState :=
  { s with simulationObjects := s.simulationObjects ++ [o] }

/-- Adding a list of objects one by one, in order (the topic modules'
sequences of `addToSimulation` calls). -/
def addAll (s : SceneState) : List SimObject → SceneState
  | [] => s
  | o :: rest => addAll (addToSimulation s o) rest

/-- The flat list of resources released when clearing a group, object by
object, geometry before material(s) for each. -/
def disposeList : List SimObject → List Resource
  | [] => []
  | o :: rest => objResources o ++ disposeList rest

/-- Degrees to radians, as the source computes it: `deg * Math.PI / 180`. -/
def degToRad (deg : ℝ) : ℝ := deg * Real.pi / 180

/-- The translucent standard material of the two reference planes
(`createBasePlanes`): color `0x99aaff`, opacity 0.2, roughness 0.5,
metalness 0.2 (cloned per plane). -/
def basePlaneMaterial : Material := .meshStandardT 0x99aaff 0.2 0.5 0.2

/-- The horizontal reference plane HP: a 20×20 plane rotated -π/2 about X. -/
def hpMesh : SimObject :=
  ⟨.mesh, .plane 20 20, .one basePlaneMaterial, v0, ⟨-(Real.pi / 2), 0, 0⟩⟩

/-- The vertical reference plane VP: a 20×20 plane rotated π about Y. -/
def vpMesh : SimObject :=
  ⟨.mesh, .plane 20 20, .one basePlaneMaterial, v0, ⟨0, Real.pi, 0⟩⟩

/-- The axis-line material (`createAxisLines`). -/
def axisMaterial : Material := .lineBasic 0x2d3748 2

/-- The three coordinate axis lines, each from -10 to 10 on its axis. -/
def axisLineObjs : List SimObject :=
  [ ⟨.line, .bufferFromPoints [⟨-10, 0, 0⟩, ⟨10, 0, 0⟩], .one axisMaterial, v0, v0⟩,
    ⟨.line, .bufferFromPoints [⟨0, -10, 0⟩, ⟨0, 10, 0⟩], .one axisMaterial, v0, v0⟩,
    ⟨.line, .bufferFromPoints [⟨0, 0, -10⟩, ⟨0, 0, 10⟩], .one axisMaterial, v0, v0⟩ ]

/-- `SceneManager.setupLighting`: ambient light plus a directional light. -/
def setupLighting (s : SceneState) : SceneState :=
  { s with lights := s.lights ++ [.ambient 0xffffff 0.7, .directional 0xffffff 0.5 ⟨10, 15, 20⟩] }

/-- `SceneManager.createBasePlanes`: installs HP, VP, the grid helper and
the axis lines. -/
def createBasePlanes (s : SceneState) : SceneState :=
  { s with
      hp := some hpMesh
      vp := some vpMesh
      gridHelper := some ⟨20, 20, 0xcccccc, 0xdddddd, 0.01⟩
      axisLines := axisLineObjs }

/-- The scene before any setup: nothing installed, empty group, no
releases logged. -/
def emptyScene : SceneState := ⟨none, none, none, [], [], [], []⟩

/-- The scene as `SceneManager.init` leaves it (lighting, then the base
planes; the simulation group starts empty). -/
def sceneExample : SceneState := createBasePlanes (setupLighting emptyScene)

/-- Parameters of the Points topic (`PointsProjection.params`). -/
structure PointParams where
  x : ℝ
  y : ℝ
  z : ℝ

/-- Parameters of the Lines topic (`LinesProjection.params`): start
point, length, angle with HP (theta) and angle with VP (phi), both in
degrees. -/
structure LineParams where
  x1 : ℝ
  y1 : ℝ
  z1 : ℝ
  length : ℝ
  theta : ℝ
  phi : ℝ

/-- Parameters of the Planes topic (`PlanesProjection.params`). -/
structure PlaneParams where
  size : ℝ
  rotX : ℝ
  rotY : ℝ
  rotZ : ℝ

/-- The dashed construction-line material of the Points topic. -/
def pointsDashMat : Material := .lineDashed 0x555555 0.2 0.1

/-- `PointsProjection.updateVisualization` + `createProjectionLines`:
the six objects added, in order — main point marker at `(x, y, z)`,
front-view marker at `(x, y, 0)`, top-view marker at `(x, 0, z)`, the
two dashed lines from the point to its projections, and the dashed
connecting polyline through `(x, 0, 0)`. -/
def pointsObjects (p : PointParams) : List SimObject :=
  [ ⟨.mesh, .sphere 0.3 16 16, .one (.meshStandard 0xff0000), ⟨p.x, p.y, p.z⟩, v0⟩,
    ⟨.mesh, .sphere 0.2 16 16, .one (.meshStandard 0x00ff00), ⟨p.x, p.y, 0⟩, v0⟩,
    ⟨.mesh, .sphere 0.2 16 16, .one (.meshStandard 0x0000ff), ⟨p.x, 0, p.z⟩, v0⟩,
    ⟨.line, .bufferFromPoints [⟨p.x, p.y, p.z⟩, ⟨p.x, p.y, 0⟩], .one pointsDashMat, v0, v0⟩,
    ⟨.line, .bufferFromPoints [⟨p.x, p.y, p.z⟩, ⟨p.x, 0, p.z⟩], .one pointsDashMat, v0, v0⟩,
    ⟨.line, .bufferFromPoints [⟨p.x, p.y, 0⟩, ⟨p.x, 0, 0⟩, ⟨p.x, 0, p.z⟩],
      .one pointsDashMat, v0, v0⟩ ]

/-- The scene effect of `PointsProjection.updateVisualization`: clear the
simulation group, then add the six objects. -/
def pointsUpdate (p : PointParams) (s : SceneState) : SceneState :=
  addAll (clearSimulation s) (pointsObjects p)

/-- `PointsProjection.getQuadrant`: classifies by the signs of `y` and
`z`; any zero coordinate falls through to the plane/axis case. -/
def getQuadrant (p : PointParams) : String :=
  if p.y > 0 ∧ p.z > 0 then "1st Quadrant"
  else if p.y > 0 ∧ p.z < 0 then "2nd Quadrant"
  else if p.y < 0 ∧ p.z < 0 then "3rd Quadrant"
  else if p.y < 0 ∧ p.z > 0 then "4th Quadrant"
  else "On a plane/axis"

/-- The Lines topic's start point `(x1, y1, z1)`. -/
def lineStart (p : LineParams) : Vec3 := ⟨p.x1, p.y1, p.z1⟩

/-- `dx = length * cos(thetaRad) * cos(phiRad)` from
`LinesProjection.updateVisualization`. -/
def lineDx (p : LineParams) : ℝ :=
  p.length * Real.cos (degToRad p.theta) * Real.cos (degToRad p.phi)

/-- `dy = length * sin(thetaRad)`. -/
def lineDy (p : LineParams) : ℝ := p.length * Real.sin (degToRad p.theta)

/-- `dz = length * cos(thetaRad) * sin(phiRad)`. -/
def lineDz (p : LineParams) : ℝ :=
  p.length * Real.cos (degToRad p.theta) * Real.sin (degToRad p.phi)

/-- The computed end point: start plus `(dx, dy, dz)`. -/
def lineEnd (p : LineParams) : Vec3 :=
  ⟨p.x1 + lineDx p, p.y1 + lineDy p, p.z1 + lineDz p⟩

/-- Front-view (VP) projection of the start point: depth zeroed. -/
def frontStart (p : LineParams) : Vec3 := ⟨(lineStart p).x, (lineStart p).y, 0⟩

/-- Front-view (VP) projection of the end point. -/
def frontEnd (p : LineParams) : Vec3 := ⟨(lineEnd p).x, (lineEnd p).y, 0⟩

/-- Top-view (HP) projection of the start point: height zeroed. -/
def topStart (p : LineParams) : Vec3 := ⟨(lineStart p).x, 0, (lineStart p).z⟩

/-- Top-view (HP) projection of the end point. -/
def topEnd (p : LineParams) : Vec3 := ⟨(lineEnd p).x, 0, (lineEnd p).z⟩

/-- `LinesProjection.createLine`: a solid line segment object. -/
def mkLine (a b : Vec3) (color : ℕ) (linewidth : ℝ) : SimObject :=
  ⟨.line, .bufferFromPoints [a, b], .one (.lineBasic color linewidth), v0, v0⟩

/-- A dashed projection line of the Lines topic
(`LinesProjection.createProjectionLines`). -/
def mkDashedLine (a b : Vec3) : SimObject :=
  ⟨.line, .bufferFromPoints [a, b], .one (.lineDashed 0x888888 0.15 0.1), v0, v0⟩

/-- `LinesProjection.updateVisualization`: the nine objects added, in
order — main line (red), front view (green), top view (blue), the four
dashed projection links, and the two red endpoint spheres. -/
def linesObjects (p : LineParams) : List SimObject :=
  [ mkLine (lineStart p) (lineEnd p) 0xff0000 3,
    mkLine (frontStart p) (frontEnd p) 0x00ff00 2,
    mkLine (topStart p) (topEnd p) 0x0000ff 2,
    mkDashedLine (lineStart p) (frontStart p),
    mkDashedLine (lineStart p) (topStart p),
    mkDashedLine (lineEnd p) (frontEnd p),
    mkDashedLine (lineEnd p) (topEnd p),
    ⟨.mesh, .sphere 0.15 16 16, .one (.meshStandard 0xff0000), lineStart p, v0⟩,
    ⟨.mesh, .sphere 0.15 16 16, .one (.meshStandard 0xff0000), lineEnd p, v0⟩ ]

/-- The scene effect of `LinesProjection.updateVisualization`. -/
def linesUpdate (p : LineParams) (s : SceneState) : SceneState :=
  addAll (clearSimulation s) (linesObjects p)

/-- `Vector3.distanceTo`: the Euclidean distance between two points, as
used by `LinesProjection.updateInfo` to report the realized length. -/
def distanceTo (a b : Vec3) : ℝ :=
  Real.sqrt ((b.x - a.x) ^ 2 + (b.y - a.y) ^ 2 + (b.z - a.z) ^ 2)

/-- The length value shown in the Lines topic's analysis panel:
`start.distanceTo(end)`. -/
def reportedLength (p : LineParams) : ℝ :=
  distanceTo (lineStart p) (lineEnd p)

/-- Rotation about the X axis by angle `a` (right-handed), as the
rendering library applies it to vectors. -/
def rotXv (a : ℝ) (v : Vec3) : Vec3 :=
  ⟨v.x, Real.cos a * v.y - Real.sin a * v.z, Real.sin a * v.y + Real.cos a * v.z⟩

/-- Rotation about the Y axis by angle `a`. -/
def rotYv (a : ℝ) (v : Vec3) : Vec3 :=
  ⟨Real.cos a * v.x + Real.sin a * v.z, v.y, -(Real.sin a) * v.x + Real.cos a * v.z⟩

/-- Rotation about the Z axis by angle `a`. -/
def rotZv (a : ℝ) (v : Vec3) : Vec3 :=
  ⟨Real.cos a * v.x - Real.sin a * v.y, Real.sin a * v.x + Real.cos a * v.y, v.z⟩

/-- `Vector3.applyEuler` for the library's default Euler order `XYZ`
(intrinsic Tait–Bryan: rotate about X, then Y, then Z; the composite
matrix is `Rx · Ry · Rz`, so acting on a vector it is
`rotXv (rotYv (rotZv v))`). -/
def applyEulerXYZ (e : Vec3) (v : Vec3) : Vec3 :=
  rotXv e.x (rotYv e.y (rotZv e.z v))

/-- The Planes topic's Euler rotation: each slider angle converted to
radians. -/
def planeRot (p : PlaneParams) : Vec3 :=
  ⟨degToRad p.rotX, degToRad p.rotY, degToRad p.rotZ⟩

/-- The Planes topic's translucent plane material. -/
def planeTopicMaterial : Material := .meshStandardT 0xff6b6b 0.6 0.3 0.1

/-- The four square corners `(±size/2, ±size/2, 0)` in the order the
source lists them. -/
def baseCorners (halfSize : ℝ) : List Vec3 :=
  [⟨-halfSize, -halfSize, 0⟩, ⟨halfSize, -halfSize, 0⟩,
   ⟨halfSize, halfSize, 0⟩, ⟨-halfSize, halfSize, 0⟩]

/-- `PlanesProjection.addCornerSpheres`: a red sphere at each corner,
the corner transformed by the plane's Euler rotation
(`corner.applyEuler(plane.rotation)`). -/
def cornerSpheres (p : PlaneParams) : List SimObject :=
  (baseCorners (p.size / 2)).map fun c =>
    ⟨.mesh, .sphere 0.15 16 16, .one (.meshStandard 0xff0000),
      applyEulerXYZ (planeRot p) c, v0⟩

/-- `PlanesProjection.updateVisualization`: the plane mesh (rotated by
the Euler angles), its edge outline (same rotation), then the four
corner spheres. -/
def planesObjects (p : PlaneParams) : List SimObject :=
  ⟨.mesh, .plane p.size p.size, .one planeTopicMaterial, v0, planeRot p⟩ ::
  ⟨.lineSegments, .edges (.plane p.size p.size), .one (.lineBasic 0xff0000 2),
    v0, planeRot p⟩ ::
  cornerSpheres p

/-- The scene effect of `PlanesProjection.updateVisualization`. -/
def planesUpdate (p : PlaneParams) (s : SceneState) : SceneState :=
  addAll (clearSimulation s) (planesObjects p)

/-- The registered topic keys (`TopicManager.topics`). -/
inductive TopicId
  | welcome
  | points
  | lines
  | planes
deriving DecidableEq

/-- The registry lookup `this.topics[topicId]`. -/
def topicsLookup : String → Option TopicId
  | "welcome" => some .welcome
  | "points" => some .points
  | "lines" => some .lines
  | "planes" => some .planes
  | _ => none

/-- The whole application state relevant to the lifecycle: the scene,
the current topic (initially none), the UI's active button, and each
topic module's persistent parameter record. -/
structure AppState where
  scene : SceneState
  currentTopic : Option TopicId
  activeButton : Option String
  pointParams : PointParams
  lineParams : LineParams
  planeParams : PlaneParams

/-- A topic's `cleanup()`: a no-op for Welcome, `clearSimulation` for the
three projection topics. -/
def topicCleanup : TopicId → SceneState → SceneState
  | .welcome, s => s
  | .points, s => clearSimulation s
  | .lines, s => clearSimulation s
  | .planes, s => clearSimulation s

/-- The scene content a topic's update routine draws, given the current
parameter records. -/
def topicObjects (t : TopicId) (st : AppState) : List SimObject :=
  match t with
  | .welcome => []
  | .points => pointsObjects st.pointParams
  | .lines => linesObjects st.lineParams
  | .planes => planesObjects st.planeParams

/-- A topic's `load()`, scene part: Welcome only writes static markup;
the projection topics run their update routine (clear, then draw). -/
def topicLoadScene (t : TopicId) (st : AppState) : AppState :=
  match t with
  | .welcome => st
  | .points => { st with scene := pointsUpdate st.pointParams st.scene }
  | .lines => { st with scene := linesUpdate st.lineParams st.scene }
  | .planes => { st with scene := planesUpdate st.planeParams st.scene }

/-- Observable operations of `TopicManager.loadTopic`, in call order. -/
inductive Ev
  | cleanupCalled (t : TopicId)
  | clearSim
  | buttonActive (id : String)
  | topicLoadCalled (t : TopicId)
  | topicChanged (id : String)
  | lookupError (id : String)
deriving DecidableEq

/-- The first step of `loadTopic`: if a topic is current (every
registered topic exposes `cleanup`), invoke its cleanup. -/
def afterCleanup (st : AppState) : AppState × List Ev :=
  match st.currentTopic with
  | some t => ({ st with scene := topicCleanup t st.scene }, [Ev.cleanupCalled t])
  | none => (st, [])

/-- The state after the unconditional `clearSimulation` and
`setActiveButton(id)` that follow the cleanup step. -/
def midState (st : AppState) (id : String) : AppState :=
  { (afterCleanup st).1 with
      scene := clearSimulation (afterCleanup st).1.scene
      activeButton := some id }

/-- `TopicManager.loadTopic(id)`: cleanup of the current topic (if any),
unconditional scene clear, mark `id`'s button active; then, if `id` is
registered, record it as current, run its `load()` and dispatch the
topic-changed event — otherwise log a lookup error and change nothing
else. Returns the new state and the trace of observable operations. -/
def loadTopic (st : AppState) (id : String) : AppState × List Ev :=
  match topicsLookup id with
  | some t =>
      (topicLoadScene t { midState st id with currentTopic := some t },
       (afterCleanup st).2 ++
         [Ev.clearSim, Ev.buttonActive id, Ev.topicLoadCalled t, Ev.topicChanged id])
  | none =>
      (midState st id,
       (afterCleanup st).2 ++ [Ev.clearSim, Ev.buttonActive id, Ev.lookupError id])

/-- Default Points parameters `{x: 3, y: 4, z: 5}`. -/
def defaultPointParams : PointParams := ⟨3, 4, 5⟩

/-- Default Lines parameters
`{x1: 2, y1: 2, z1: 1, length: 6, theta: 30, phi: 45}`. -/
def defaultLineParams : LineParams := ⟨2, 2, 1, 6, 30, 45⟩

/-- Default Planes parameters `{size: 5, rotX: 30, rotY: 45, rotZ: 0}`. -/
def defaultPlaneParams : PlaneParams := ⟨5, 30, 45, 0⟩

/-- The application state right after `Application.init` has built the
managers and before the default topic is loaded: initialized scene, no
current topic, no active button, default parameter records. -/
def appInit : AppState :=
  ⟨sceneExample, none, none, defaultPointParams, defaultLineParams, defaultPlaneParams⟩

end

-- Helper lemmas ------------------------------------------------------------

lemma clearSimAux_eq (l : List SimObject) (log : List Resource) :
    clearSimAux log l = log ++ disposeList l := by
  induction l generalizing log with
  | nil => simp [clearSimAux, disposeList]
  | cons o rest ih => simp [clearSimAux, disposeList, ih, List.append_assoc]

lemma addAll_simulationObjects (l : List SimObject) (s : SceneState) :
    (addAll s l).simulationObjects = s.simulationObjects ++ l := by
  induction l generalizing s with
  | nil => simp [addAll]
  | cons o rest ih => simp [addAll, addToSimulation, ih]

-- Claims -------------------------------------------------------------------

/-- C7: The scene-clear operation is idempotent: after a call the active
object set is empty; a second call in succession changes nothing (and in
particular raises no error, the function being total); and calling it on
an already-empty set is a no-op. -/
theorem clearSimulation_idempotent (s : SceneState) :
    (clearSimulation s).simulationObjects = [] ∧
    clearSimulation (clearSimulation s) = clearSimulation s ∧
    (s.simulationObjects = [] → clearSimulation s = s) := by
  obtain ⟨hp, vp, grid, ax, li, sims, log⟩ := s
  refine ⟨rfl, rfl, ?_⟩
  intro h
  simp only at h
  subst h
  simp [clearSimulation, clearSimAux]

/-- Witness for C7 at a concrete scene (the freshly initialized scene,
whose simulation group is empty). -/
theorem clearSimulation_idempotent_witness :
    (clearSimulation sceneExample).simulationObjects = [] ∧
    clearSimulation (clearSimulation sceneExample) = clearSimulation sceneExample ∧
    (sceneExample.simulationObjects = [] → clearSimulation sceneExample = sceneExample) :=
  clearSimulation_idempotent sceneExample

/-- C8: `clearSimulation` removes every object from the active set,
extends the release log by exactly each removed object's geometry
followed by its material(s), in group order, and leaves the reference
planes (HP and VP), the grid, the axis lines and the lighting untouched. -/
theorem clearSimulation_disposes_and_preserves_base (s : SceneState) :
    (clearSimulation s).simulationObjects = [] ∧
    (clearSimulation s).disposed = s.disposed ++ disposeList s.simulationObjects ∧
    (clearSimulation s).hp = s.hp ∧
    (clearSimulation s).vp = s.vp ∧
    (clearSimulation s).gridHelper = s.gridHelper ∧
    (clearSimulation s).axisLines = s.axisLines ∧
    (clearSimulation s).lights = s.lights := by
  refine ⟨rfl, ?_, rfl, rfl, rfl, rfl, rfl⟩
  simp [clearSimulation, clearSimAux_eq]

/-- C10: A single run of the Points topic's update routine leaves the
active set containing exactly its six objects (three sphere markers and
three construction lines), regardless of the prior contents of the set:
the routine begins by clearing, so the result depends on the current
parameters alone. -/
theorem points_update_exactly_six (p : PointParams) (s : SceneState) :
    (pointsUpdate p s).simulationObjects = pointsObjects p ∧
    (pointsObjects p).length = 6 ∧
    (pointsObjects p).map SimObject.cls =
      [.mesh, .mesh, .mesh, .line, .line, .line] := by
  refine ⟨?_, rfl, rfl⟩
  simp [pointsUpdate, addAll_simulationObjects, clearSimulation]

/-- C5: The Points topic places the front-view marker exactly at
`(x, y, 0)` and the top-view marker exactly at `(x, 0, z)` (they are the
second and third objects drawn). -/
theorem points_projection_markers (p : PointParams) :
    ((pointsObjects p)[1]?).map SimObject.pos = some ⟨p.x, p.y, 0⟩ ∧
    ((pointsObjects p)[2]?).map SimObject.pos = some ⟨p.x, 0, p.z⟩ :=
  ⟨rfl, rfl⟩

/-- C6: The quadrant classification depends only on the signs of `y` and
`z` (it is independent of `x`), with `(+,+) → 1st`, `(+,-) → 2nd`,
`(-,-) → 3rd`, `(-,+) → 4th`, and any zero coordinate giving the
plane/axis answer. -/
theorem getQuadrant_sign_classification (p : PointParams) :
    (∀ x' : ℝ, getQuadrant ⟨x', p.y, p.z⟩ = getQuadrant p) ∧
    (0 < p.y → 0 < p.z → getQuadrant p = "1st Quadrant") ∧
    (0 < p.y → p.z < 0 → getQuadrant p = "2nd Quadrant") ∧
    (p.y < 0 → p.z < 0 → getQuadrant p = "3rd Quadrant") ∧
    (p.y < 0 → 0 < p.z → getQuadrant p = "4th Quadrant") ∧
    (p.y = 0 ∨ p.z = 0 → getQuadrant p = "On a plane/axis") := by
  refine ⟨fun x' => rfl, ?_, ?_, ?_, ?_, ?_⟩
  · intro hy hz
    simp [getQuadrant, hy, hz]
  · intro hy hz
    simp [getQuadrant, hy, hz, asymm hz]
  · intro hy hz
    simp [getQuadrant, hy, hz, asymm hy, asymm hz]
  · intro hy hz
    simp [getQuadrant, hy, hz, asymm hy, asymm hz]
  · intro hyz
    rcases hyz with h | h <;> simp [getQuadrant, h, lt_irrefl]

/-- Witness for C6 at the default Points parameters `(3, 4, 5)`: both
coordinates positive, first quadrant. -/
theorem getQuadrant_sign_classification_witness :
    getQuadrant defaultPointParams = "1st Quadrant" :=
  (getQuadrant_sign_classification defaultPointParams).2.1
    (by norm_num [defaultPointParams]) (by norm_num [defaultPointParams])

/-- C3: The main segment drawn by the Lines topic (the first object of
its update routine) runs from the start point to
`start + (length·cosθ·cosφ, length·sinθ, length·cosθ·sinφ)`, the angles
being the inputs converted from degrees to radians. -/
theorem lines_main_segment_endpoint (p : LineParams) :
    ((linesObjects p)[0]?).map SimObject.geom =
      some (.bufferFromPoints [lineStart p, lineEnd p]) ∧
    (lineEnd p).x = (lineStart p).x +
      p.length * Real.cos (degToRad p.theta) * Real.cos (degToRad p.phi) ∧
    (lineEnd p).y = (lineStart p).y + p.length * Real.sin (degToRad p.theta) ∧
    (lineEnd p).z = (lineStart p).z +
      p.length * Real.cos (degToRad p.theta) * Real.sin (degToRad p.phi) :=
  ⟨rfl, rfl, rfl, rfl⟩

/-- C4: The length the Lines topic reports in its analysis panel is the
Euclidean distance between the true start and end points, and in exact
real arithmetic that distance equals the input length parameter (for any
angles; the sliders keep `length ≥ 1 ≥ 0`). -/
theorem lines_reported_length (p : LineParams) (h : 0 ≤ p.length) :
    reportedLength p = distanceTo (lineStart p) (lineEnd p) ∧
    distanceTo (lineStart p) (lineEnd p) = p.length := by
  refine ⟨rfl, ?_⟩
  have harg : ((lineEnd p).x - (lineStart p).x) ^ 2 +
      ((lineEnd p).y - (lineStart p).y) ^ 2 +
      ((lineEnd p).z - (lineStart p).z) ^ 2 = p.length ^ 2 := by
    have h1 := Real.sin_sq_add_cos_sq (degToRad p.theta)
    have h2 := Real.sin_sq_add_cos_sq (degToRad p.phi)
    simp only [lineEnd, lineStart, lineDx, lineDy, lineDz]
    linear_combination (p.length ^ 2 * (Real.cos (degToRad p.theta)) ^ 2) * h2 +
      p.length ^ 2 * h1
  rw [distanceTo, harg]
  exact Real.sqrt_sq h

/-- Witness for C4 at the default Lines parameters
`(2, 2, 1, length 6, θ 30°, φ 45°)`. -/
theorem lines_reported_length_witness :
    reportedLength defaultLineParams =
      distanceTo (lineStart defaultLineParams) (lineEnd defaultLineParams) ∧
    distanceTo (lineStart defaultLineParams) (lineEnd defaultLineParams) =
      defaultLineParams.length :=
  lines_reported_length defaultLineParams (by norm_num [defaultLineParams])

/-- C9: The Planes topic's four corner markers sit at the square corners
`(±size/2, ±size/2, 0)` transformed by the same X-then-Y-then-Z
(intrinsic, library Euler order `XYZ`) rotation that is applied to the
plane itself; with `size = 5` and all rotations `0°` they are exactly at
`(±2.5, ±2.5, 0)`. -/
theorem planes_corner_markers (p : PlaneParams) :
    (planesObjects p).map SimObject.pos =
      [v0, v0] ++ (baseCorners (p.size / 2)).map (applyEulerXYZ (planeRot p)) ∧
    ((planesObjects p)[0]?).map SimObject.rot = some (planeRot p) ∧
    ((planesObjects p)[1]?).map SimObject.rot = some (planeRot p) ∧
    (planesObjects ⟨5, 0, 0, 0⟩).map SimObject.pos =
      [v0, v0, ⟨-2.5, -2.5, 0⟩, ⟨2.5, -2.5, 0⟩, ⟨2.5, 2.5, 0⟩, ⟨-2.5, 2.5, 0⟩] := by
  refine ⟨by simp [planesObjects, cornerSpheres, baseCorners], rfl, rfl, ?_⟩
  simp only [planesObjects, cornerSpheres, baseCorners, planeRot, applyEulerXYZ,
    rotXv, rotYv, rotZv, degToRad, List.map, List.map_cons, List.map_nil]
  norm_num [v0, Vec3.mk.injEq]

lemma afterCleanup_params (st : AppState) :
    ((afterCleanup st).1).pointParams = st.pointParams ∧
    ((afterCleanup st).1).lineParams = st.lineParams ∧
    ((afterCleanup st).1).planeParams = st.planeParams := by
  rcases h : st.currentTopic with _ | t <;> simp [afterCleanup, h]

lemma loadTopic_params (st : AppState) (id : String) :
    ((loadTopic st id).1).pointParams = st.pointParams ∧
    ((loadTopic st id).1).lineParams = st.lineParams ∧
    ((loadTopic st id).1).planeParams = st.planeParams := by
  obtain ⟨h1, h2, h3⟩ := afterCleanup_params st
  rcases h : topicsLookup id with _ | t
  · simp [loadTopic, h, midState, h1, h2, h3]
  · cases t <;> simp [loadTopic, h, midState, topicLoadScene, h1, h2, h3]

lemma loadTopic_sim_registered (st : AppState) (id : String) (t : TopicId)
    (h : topicsLookup id = some t) :
    ((loadTopic st id).1).scene.simulationObjects = topicObjects t st := by
  obtain ⟨h1, h2, h3⟩ := afterCleanup_params st
  cases t <;>
    simp [loadTopic, h, topicLoadScene, topicObjects, midState, clearSimulation,
      pointsUpdate, linesUpdate, planesUpdate, addAll_simulationObjects,
      h1, h2, h3]

/-- C1: Within one synchronous `loadTopic(id)` call with `id` registered,
the operations happen in order — current topic's cleanup (when one is
active), unconditional scene clear, marking `id`'s button active, then
setting `id` as current, running its `load()`, and dispatching the
topic-changed notification carrying `id`; afterwards the active object
set holds exactly the new topic's content, so after `loadTopic(A)`
followed by `loadTopic(B)` only B's geometry remains. -/
theorem loadTopic_sequence_and_exclusivity (st : AppState) (a b : String)
    (tb : TopicId) (hb : topicsLookup b = some tb) :
    (loadTopic st b).2 =
      (match st.currentTopic with
        | some t => [Ev.cleanupCalled t]
        | none => []) ++
        [Ev.clearSim, Ev.buttonActive b, Ev.topicLoadCalled tb, Ev.topicChanged b] ∧
    ((loadTopic st b).1).currentTopic = some tb ∧
    ((loadTopic st b).1).scene.simulationObjects = topicObjects tb st ∧
    ((loadTopic (loadTopic st a).1 b).1).scene.simulationObjects = topicObjects tb st := by
  refine ⟨?_, ?_, loadTopic_sim_registered st b tb hb, ?_⟩
  · rcases h : st.currentTopic with _ | t <;> simp [loadTopic, hb, afterCleanup, h]
  · cases tb <;> simp [loadTopic, hb, topicLoadScene]
  · rw [loadTopic_sim_registered _ b tb hb]
    obtain ⟨h1, h2, h3⟩ := loadTopic_params st a
    cases tb <;> simp [topicObjects, h1, h2, h3]

/-- Witness for C1: from the freshly initialized application, load the
Points topic, then the Lines topic. -/
theorem loadTopic_sequence_and_exclusivity_witness :
    (loadTopic appInit "lines").2 =
      [Ev.clearSim, Ev.buttonActive "lines", Ev.topicLoadCalled TopicId.lines,
        Ev.topicChanged "lines"] ∧
    ((loadTopic appInit "lines").1).currentTopic = some TopicId.lines ∧
    ((loadTopic appInit "lines").1).scene.simulationObjects =
      topicObjects TopicId.lines appInit ∧
    ((loadTopic (loadTopic appInit "points").1 "lines").1).scene.simulationObjects =
      topicObjects TopicId.lines appInit :=
  loadTopic_sequence_and_exclusivity appInit "points" "lines" TopicId.lines rfl

/-- C2, counterexample to "leaves the active topic unset": after loading
the Points topic and then requesting the unknown identifier `"solids"`,
the recorded current topic is still Points — the failure path never
clears `currentTopic`, it only skips reassigning it. -/
theorem loadTopic_unknown_counterexample :
    ((loadTopic (loadTopic appInit "points").1 "solids").1).currentTopic =
      some TopicId.points := rfl

/-- C2 as amended: requesting an unregistered identifier reports a lookup
error (after the cleanup and unconditional clear), never throws (the
transition is total), leaves the active object set cleared with no new
content, marks the requested button active, and leaves the recorded
current topic unchanged (the previously active topic, if any, stays
recorded; it is not unset). -/
theorem loadTopic_unknown_behavior (st : AppState) (id : String)
    (h : topicsLookup id = none) :
    (loadTopic st id).2 =
      (match st.currentTopic with
        | some t => [Ev.cleanupCalled t]
        | none => []) ++ [Ev.clearSim, Ev.buttonActive id, Ev.lookupError id] ∧
    ((loadTopic st id).1).scene.simulationObjects = [] ∧
    ((loadTopic st id).1).currentTopic = st.currentTopic ∧
    ((loadTopic st id).1).activeButton = some id := by
  refine ⟨?_, ?_, ?_, ?_⟩ <;>
    rcases hc : st.currentTopic with _ | t <;>
      simp [loadTopic, h, midState, afterCleanup, hc, clearSimulation]

/-- Witness for C2's amended statement: the unknown identifier
`"solids"` requested from the freshly initialized application. -/
theorem loadTopic_unknown_behavior_witness :
    (loadTopic appInit "solids").2 =
      [Ev.clearSim, Ev.buttonActive "solids", Ev.lookupError "solids"] ∧
    ((loadTopic appInit "solids").1).scene.simulationObjects = [] ∧
    ((loadTopic appInit "solids").1).currentTopic = appInit.currentTopic ∧
    ((loadTopic appInit "solids").1).activeButton = some "solids" :=
  loadTopic_unknown_behavior appInit "solids" rfl
